import Mathlib

/-!
Verification of the JAX numeric type-promotion engine (`jax/_src/dtypes.py`).

The embedding models:
- the 22 concrete numpy/ml_dtypes dtypes plus the three weak tags as `JAXType`
  (the source keeps weak tags as the Python classes `int`, `float`, `complex`,
  distinguished from concrete dtypes by object identity; here they are distinct
  constructors);
- the two promotion lattices (`_type_promotion_lattice`), the transitive-closure
  upper-bound sets (`_make_lattice_upper_bounds`), and the LUB solver
  (`_least_upper_bound`);
- canonicalization (`_canonicalize_dtype`), the subtype oracle (`issubdtype`),
  result-type resolution (`_lattice_result_type` / `result_type`),
  `promote_types` and `safe_to_cast`.

Process-wide configuration is modeled by explicit parameters: the promotion
policy (`config.numpy_dtype_promotion`, always passed through by the source's
callers, and read again for the strict-mode error message) and a single wide
flag standing for `config.enable_x64` together with the `default_dtype_bits`
flag it governs (the spec's single process-wide width mode).  Since `int4` is
imported unconditionally from `ml_dtypes` in the source, the `int4 is not None`
branches are taken.

Python `set` values are modeled as lists used only through membership; the
errors raised by the source become an explicit error enumeration.
-/

deriving instance DecidableEq for Except

namespace JaxDtypes

/-- Concrete numpy / ml_dtypes dtypes that populate `_jax_types` in the source
(bool, the ten integer dtypes including the 4-bit ones, the five float8
formats, bfloat16, the IEEE floats and the two complex dtypes). -/
inductive DType where
  | bool
  | uint4 | uint8 | uint16 | uint32 | uint64
  | int4 | int8 | int16 | int32 | int64
  | float8_e4m3b11fnuz | float8_e4m3fn | float8_e4m3fnuz
  | float8_e5m2 | float8_e5m2fnuz
  | bfloat16 | float16 | float32 | float64
  | complex64 | complex128
deriving DecidableEq, Repr, Fintype

/-- A node of the promotion lattice: a concrete dtype or one of the three weak
tags `_weak_types = [int, float, complex]` of the source. -/
inductive JAXType where
  | weak_int | weak_float | weak_complex
  | concrete (d : DType)
deriving DecidableEq, Repr, Fintype

/-- The value of the `jax_numpy_dtype_promotion` configuration flag. -/
inductive Policy where
  | standard | strict
deriving DecidableEq, Repr, Fintype

/-- Errors surfaced by the engine.  The four `promo*` constructors are the
four `TypePromotionError` diagnostic messages chosen in `_least_upper_bound`;
`illFormedLattice` is the distinct internal `TypePromotionError` raised for a
non-unique candidate set; `invalidArgument` stands for the `ValueError` /
`TypeError` raised on malformed input. -/
inductive JaxError where
  | invalidArgument
  | promoStrict | promoFloat8 | promoInt4 | promoGeneric
  | illFormedLattice
deriving DecidableEq, Repr

/-- Source list `_custom_float_dtypes` (five float8 formats plus bfloat16). -/
def _custom_float_dtypes : List DType :=
  [.float8_e4m3b11fnuz, .float8_e4m3fn, .float8_e4m3fnuz,
   .float8_e5m2, .float8_e5m2fnuz, .bfloat16]

/-- Source list `_float8_dtypes` (the five float8 formats only). -/
def _float8_dtypes : List DType :=
  [.float8_e4m3b11fnuz, .float8_e4m3fn, .float8_e4m3fnuz,
   .float8_e5m2, .float8_e5m2fnuz]

/-- Source list `_int4_dtypes`. -/
def _int4_dtypes : List DType := [.int4, .uint4]

/-- Source list `_int_types` in declaration order (the `int4 is not None`
branch). -/
def _int_types : List DType :=
  [.uint4, .uint8, .uint16, .uint32, .uint64,
   .int4, .int8, .int16, .int32, .int64]

/-- Source list `_float_types` in declaration order. -/
def _float_types : List DType :=
  [.float8_e4m3b11fnuz, .float8_e4m3fn, .float8_e4m3fnuz,
   .float8_e5m2, .float8_e5m2fnuz, .bfloat16, .float16, .float32, .float64]

/-- Source list `_complex_types`. -/
def _complex_types : List DType := [.complex64, .complex128]

/-- The source's `np.dtype` applied to a lattice node: concrete dtypes map to
themselves, the weak tags (the Python classes `int`, `float`, `complex`) map
to `int64`, `float64`, `complex128` (`python_scalar_dtypes`, and equally
`np.dtype(int)` on the 64-bit platforms JAX runs on). -/
def dtype_of_jax_type : JAXType → DType
  | .weak_int => .int64
  | .weak_float => .float64
  | .weak_complex => .complex128
  | .concrete d => d

/-- The dict `_dtype_to_32bit_dtype`, as a total function: the four 64-bit
dtypes map to their 32-bit counterparts, every other dtype is left unchanged
(`dict.get(dtype_, dtype_)`). -/
def _dtype_to_32bit_dtype : DType → DType
  | .int64 => .int32
  | .uint64 => .uint32
  | .float64 => .float32
  | .complex128 => .complex64
  | d => d

/-- The non-extended branch of `_canonicalize_dtype` for a plain dtype:
identity when x64 is enabled, else `_dtype_to_32bit_dtype.get(dtype_, dtype_)`. -/
def canonicalize_dtype (x64_enabled : Bool) (d : DType) : DType :=
  if x64_enabled then d else _dtype_to_32bit_dtype d

/-- The promotion lattice `_type_promotion_lattice`: each node maps to the
list of its immediate successors.  In the standard dict, `i_` gets
`_int4_dtype` and `_uint4_dtype` appended after `[u1, i1]`; the strict dict
sends each weak tag to the next weak tag followed by all concrete members of
its category, and makes every concrete dtype terminal. -/
def _type_promotion_lattice (p : Policy) (t : JAXType) : List JAXType :=
  match p with
  | .standard =>
    match t with
    | .concrete .bool => [.weak_int]
    | .concrete .uint8 => [.concrete .int16, .concrete .uint16]
    | .concrete .uint16 => [.concrete .int32, .concrete .uint32]
    | .concrete .uint32 => [.concrete .int64, .concrete .uint64]
    | .concrete .uint64 => [.weak_float]
    | .weak_int => [.concrete .uint8, .concrete .int8,
                    .concrete .int4, .concrete .uint4]
    | .concrete .int8 => [.concrete .int16]
    | .concrete .int16 => [.concrete .int32]
    | .concrete .int32 => [.concrete .int64]
    | .concrete .int64 => [.weak_float]
    | .weak_float => [.concrete .float8_e4m3b11fnuz, .concrete .float8_e4m3fn,
                      .concrete .float8_e4m3fnuz, .concrete .float8_e5m2,
                      .concrete .float8_e5m2fnuz, .concrete .bfloat16,
                      .concrete .float16, .weak_complex]
    | .concrete .float8_e4m3b11fnuz => []
    | .concrete .float8_e4m3fn => []
    | .concrete .float8_e4m3fnuz => []
    | .concrete .float8_e5m2 => []
    | .concrete .float8_e5m2fnuz => []
    | .concrete .bfloat16 => [.concrete .float32]
    | .concrete .float16 => [.concrete .float32]
    | .concrete .float32 => [.concrete .float64, .concrete .complex64]
    | .concrete .float64 => [.concrete .complex128]
    | .weak_complex => [.concrete .complex64]
    | .concrete .complex64 => [.concrete .complex128]
    | .concrete .complex128 => []
    | .concrete .int4 => []
    | .concrete .uint4 => []
  | .strict =>
    match t with
    | .weak_int => .weak_float :: _int_types.map .concrete
    | .weak_float => .weak_complex :: _float_types.map .concrete
    | .weak_complex => _complex_types.map .concrete
    | .concrete _ => []

/-- One saturation loop of `_make_lattice_upper_bounds` for a single node,
with explicit fuel standing for the `while True` loop: compute the successors
of everything collected so far, stop when nothing new appears, otherwise add
the new nodes.  (The source's cycle check `if n in new_upper_bounds: raise`
never fires: both lattices are acyclic, which `rank_lt_of_mem_lattice` below
certifies.) -/
def ubAux (p : Policy) : Nat → List JAXType → List JAXType
  | 0, ub => ub
  | fuel+1, ub =>
    if ((ub.flatMap (_type_promotion_lattice p)).dedup).all
        (fun x => decide (x ∈ ub)) then ub
    else ubAux p fuel
      (ub ++ ((ub.flatMap (_type_promotion_lattice p)).dedup).filter
        (fun x => decide (x ∉ ub)))

/-- The per-node entry of `_lattice_upper_bounds`: the upper-bound set
`UB(n)`, i.e. the reflexive-transitive closure of the immediate-successor
relation starting from `{node: {node}}`.  Fuel 30 exceeds the 25-node
universe, so the fixpoint is reached. -/
def upper_bounds (p : Policy) (n : JAXType) : List JAXType :=
  ubAux p 30 [n]

/-- A topological height certifying that both lattices are acyclic: every
immediate-successor edge strictly increases it (proof artifact, not part of the
source). -/
def rank (p : Policy) (t : JAXType) : Nat :=
  match p with
  | .standard =>
    match t with
    | .concrete .bool => 0
    | .weak_int => 1
    | .concrete .uint8 => 2
    | .concrete .int8 => 2
    | .concrete .int4 => 2
    | .concrete .uint4 => 2
    | .concrete .uint16 => 3
    | .concrete .int16 => 3
    | .concrete .uint32 => 4
    | .concrete .int32 => 4
    | .concrete .uint64 => 5
    | .concrete .int64 => 5
    | .weak_float => 6
    | .concrete .float8_e4m3b11fnuz => 7
    | .concrete .float8_e4m3fn => 7
    | .concrete .float8_e4m3fnuz => 7
    | .concrete .float8_e5m2 => 7
    | .concrete .float8_e5m2fnuz => 7
    | .concrete .bfloat16 => 7
    | .concrete .float16 => 7
    | .weak_complex => 7
    | .concrete .float32 => 8
    | .concrete .float64 => 9
    | .concrete .complex64 => 9
    | .concrete .complex128 => 10
  | .strict =>
    match t with
    | .weak_int => 0
    | .weak_float => 1
    | .weak_complex => 2
    | .concrete _ => 3

theorem rank_lt_of_mem_lattice :
    ∀ (p : Policy) (n m : JAXType),
      m ∈ _type_promotion_lattice p n → rank p n < rank p m := by
  decide

theorem ubAux_sound (p : Policy) (P : JAXType → Prop)
    (hstep : ∀ b x, P b → x ∈ _type_promotion_lattice p b → P x) :
    ∀ (fuel : Nat) (ub : List JAXType), (∀ x ∈ ub, P x) →
      ∀ x ∈ ubAux p fuel ub, P x := by
  intro fuel
  induction fuel with
  | zero => intro ub h x hx; exact h x hx
  | succ k ih =>
    intro ub h x hx
    rw [ubAux] at hx
    split at hx
    · exact h x hx
    · refine ih _ ?_ x hx
      intro y hy
      rcases List.mem_append.mp hy with hy | hy
      · exact h y hy
      · have hy1 := (List.mem_filter.mp hy).1
        rcases List.mem_flatMap.mp (List.mem_dedup.mp hy1) with ⟨b, hb, hyb⟩
        exact hstep b y (h b hb) hyb

theorem ubAux_nodup (p : Policy) :
    ∀ (fuel : Nat) (ub : List JAXType), ub.Nodup → (ubAux p fuel ub).Nodup := by
  intro fuel
  induction fuel with
  | zero => intro ub h; exact h
  | succ k ih =>
    intro ub h
    rw [ubAux]
    split
    · exact h
    · refine ih _ (List.Nodup.append h (List.Nodup.filter _ (List.nodup_dedup _)) ?_)
      intro a ha hafilter
      have := (List.mem_filter.mp hafilter).2
      simp only [decide_eq_true_eq] at this
      exact this ha

/-- Membership in an upper-bound set forces the rank to not decrease; in fact
any member other than the root has strictly larger rank. -/
theorem mem_upper_bounds_rank (p : Policy) (n x : JAXType)
    (hx : x ∈ upper_bounds p n) : x = n ∨ rank p n < rank p x := by
  refine ubAux_sound p (fun y => y = n ∨ rank p n < rank p y) ?_ 30 [n] ?_ x hx
  · intro b y hb hyb
    have hlt := rank_lt_of_mem_lattice p b y hyb
    rcases hb with hb | hb
    · subst hb; exact Or.inr hlt
    · exact Or.inr (Nat.lt_trans hb hlt)
  · intro y hy
    simp only [List.mem_singleton] at hy
    exact Or.inl hy

/-- The upper-bound relation is antisymmetric: the lattices are acyclic. -/
theorem upper_bounds_antisymm (p : Policy) (a b : JAXType)
    (hab : a ∈ upper_bounds p b) (hba : b ∈ upper_bounds p a) : a = b := by
  rcases mem_upper_bounds_rank p b a hab with h | h
  · exact h
  · rcases mem_upper_bounds_rank p a b hba with h2 | h2
    · exact h2.symm
    · exact absurd h2 (Nat.lt_asymm h)

theorem upper_bounds_nodup (p : Policy) (n : JAXType) :
    (upper_bounds p n).Nodup :=
  ubAux_nodup p 30 [n] (List.nodup_singleton n)

/-- The common-upper-bound set `CUB = set.intersection(*bounds)` of
`_least_upper_bound`, computed by intersecting the upper-bound sets of the
input nodes (`bounds = [UB[n] for n in N]`).  The source takes `N = set(nodes)`;
duplicates in `nodes` do not change an intersection, so the raw list is used. -/
def commonUpperBounds (p : Policy) (nodes : List JAXType) : List JAXType :=
  match nodes with
  | [] => []
  | n :: rest =>
    rest.foldl
      (fun acc m => acc.filter (fun a => decide (a ∈ upper_bounds p m)))
      (upper_bounds p n)

/-- The shortcut candidate set `CUB & N` of `_least_upper_bound`. -/
def lubShortcut (p : Policy) (nodes : List JAXType) : List JAXType :=
  (commonUpperBounds p nodes).filter (fun c => decide (c ∈ nodes))

/-- The main candidate set `{c for c in CUB if CUB.issubset(UB[c])}` of
`_least_upper_bound`. -/
def lubMain (p : Policy) (nodes : List JAXType) : List JAXType :=
  (commonUpperBounds p nodes).filter
    (fun c => (commonUpperBounds p nodes).all
      (fun d => decide (d ∈ upper_bounds p c)))

/-- The candidate set `LUB = (CUB & N) or {c for c in CUB if
CUB.issubset(UB[c])}` — Python `or` falls through on an empty set. -/
def lubCandidates (p : Policy) (nodes : List JAXType) : List JAXType :=
  if (lubShortcut p nodes).isEmpty then lubMain p nodes
  else lubShortcut p nodes

/-- Is the node one of the five `_float8_dtypes`?  (`n in _float8_dtypes`;
weak tags are Python classes and never compare equal to a dtype.) -/
def isFloat8Node : JAXType → Bool
  | .concrete d => decide (d ∈ _float8_dtypes)
  | _ => false

/-- Is the node one of the two `_int4_dtypes`? -/
def isInt4Node : JAXType → Bool
  | .concrete d => decide (d ∈ _int4_dtypes)
  | _ => false

/-- The diagnostic chosen by `_least_upper_bound` when the candidate set is
empty: strict mode first (the source re-reads the config flag, which its
callers always pass as the first argument), then float8 inputs, then int4
inputs, then the generic message. -/
def promoErrMsg (p : Policy) (nodes : List JAXType) : JaxError :=
  if p = .strict then .promoStrict
  else if nodes.any isFloat8Node then .promoFloat8
  else if nodes.any isInt4Node then .promoInt4
  else .promoGeneric

/-- The LUB solver `_least_upper_bound`: a unique candidate is returned, an
empty candidate set raises `TypePromotionError` with a chosen message, and
more than one candidate raises the internal ill-formed-lattice error
(`LUB.pop()` on a singleton set is its sole element).  Unknown nodes cannot
occur: `JAXType` enumerates exactly the keys of the lattice dict. -/
def _least_upper_bound (p : Policy) (nodes : List JAXType) :
    Except JaxError JAXType :=
  match lubCandidates p nodes with
  | [x] => .ok x
  | [] => .error (promoErrMsg p nodes)
  | _ => .error .illFormedLattice

theorem mem_foldl_filter (p : Policy) (a : JAXType) :
    ∀ (rest acc : List JAXType),
      (a ∈ rest.foldl
        (fun acc m => acc.filter (fun x => decide (x ∈ upper_bounds p m)))
        acc)
      ↔ (a ∈ acc ∧ ∀ m ∈ rest, a ∈ upper_bounds p m) := by
  intro rest
  induction rest with
  | nil => intro acc; simp
  | cons m rest ih =>
    intro acc
    rw [List.foldl_cons, ih]
    simp only [List.mem_filter, decide_eq_true_eq, List.mem_cons]
    constructor
    · rintro ⟨⟨h1, h2⟩, h3⟩
      refine ⟨h1, ?_⟩
      intro x hx
      rcases hx with hx | hx
      · subst hx; exact h2
      · exact h3 x hx
    · rintro ⟨h1, h2⟩
      exact ⟨⟨h1, h2 m (Or.inl rfl)⟩, fun x hx => h2 x (Or.inr hx)⟩

theorem mem_commonUpperBounds (p : Policy) (a : JAXType) {nodes : List JAXType}
    (hne : nodes ≠ []) :
    a ∈ commonUpperBounds p nodes ↔ ∀ n ∈ nodes, a ∈ upper_bounds p n := by
  match nodes with
  | [] => exact absurd rfl hne
  | n :: rest =>
    rw [commonUpperBounds, mem_foldl_filter]
    simp only [List.mem_cons]
    constructor
    · rintro ⟨h1, h2⟩
      intro x hx
      rcases hx with hx | hx
      · exact hx ▸ h1
      · exact h2 x hx
    · intro h
      exact ⟨h n (Or.inl rfl), fun x hx => h x (Or.inr hx)⟩

theorem foldl_filter_nodup (p : Policy) :
    ∀ (rest acc : List JAXType), acc.Nodup →
      (rest.foldl
        (fun acc m => acc.filter (fun x => decide (x ∈ upper_bounds p m)))
        acc).Nodup := by
  intro rest
  induction rest with
  | nil => intro acc h; exact h
  | cons m rest ih =>
    intro acc h
    rw [List.foldl_cons]
    exact ih _ (List.Nodup.filter _ h)

theorem commonUpperBounds_nodup (p : Policy) (nodes : List JAXType) :
    (commonUpperBounds p nodes).Nodup := by
  match nodes with
  | [] => exact List.nodup_nil
  | n :: rest => exact foldl_filter_nodup p rest _ (upper_bounds_nodup p n)

theorem nodup_eq_singleton {α : Type} {l : List α} {x : α}
    (hn : l.Nodup) (hx : x ∈ l) (hall : ∀ y ∈ l, y = x) : l = [x] := by
  match l with
  | [] => exact absurd hx (List.not_mem_nil x)
  | a :: t =>
    have ha : a = x := hall a (List.mem_cons_self a t)
    subst ha
    have ht : t = [] := by
      match t with
      | [] => rfl
      | b :: t2 =>
        have hb : b = a := hall b (List.mem_cons_of_mem a (List.mem_cons_self b t2))
        have : a ∉ b :: t2 := (List.nodup_cons.mp hn).1
        exact absurd (hb ▸ List.mem_cons_self b t2) this
    rw [ht]

/-- C1: for every policy and non-empty list of input nodes (all `JAXType`
values are known to both lattices), `_least_upper_bound` follows the reference
definition: if some node lies in the common-upper-bound set `CUB`, that node
is returned (and is therefore the unique such node); otherwise any member `c`
of `CUB` with `CUB ⊆ UB(c)` is returned (and is therefore unique). -/
theorem c1_least_upper_bound_reference (p : Policy) (nodes : List JAXType)
    (hne : nodes ≠ []) :
    (∀ x, x ∈ commonUpperBounds p nodes → x ∈ nodes →
        _least_upper_bound p nodes = .ok x) ∧
    (∀ c, (∀ y ∈ nodes, y ∉ commonUpperBounds p nodes) →
        c ∈ commonUpperBounds p nodes →
        (∀ d ∈ commonUpperBounds p nodes, d ∈ upper_bounds p c) →
        _least_upper_bound p nodes = .ok c) := by
  constructor
  · intro x hxC hxN
    have hshort : lubShortcut p nodes = [x] := by
      apply nodup_eq_singleton
        (List.Nodup.filter _ (commonUpperBounds_nodup p nodes))
      · exact List.mem_filter.mpr ⟨hxC, decide_eq_true hxN⟩
      · intro y hy
        have hyC := (List.mem_filter.mp hy).1
        have hyN : y ∈ nodes := by
          have := (List.mem_filter.mp hy).2
          simpa using this
        have h1 : x ∈ upper_bounds p y :=
          (mem_commonUpperBounds p x hne).mp hxC y hyN
        have h2 : y ∈ upper_bounds p x :=
          (mem_commonUpperBounds p y hne).mp hyC x hxN
        exact upper_bounds_antisymm p y x h2 h1
    have hc : lubCandidates p nodes = [x] := by
      rw [lubCandidates, hshort]
      rfl
    unfold _least_upper_bound
    rw [hc]
  · intro c hdisj hcC hcUB
    have hshortNil : lubShortcut p nodes = [] := by
      rw [lubShortcut]
      rw [List.filter_eq_nil_iff]
      intro a ha
      simp only [decide_eq_true_eq]
      intro haN
      exact hdisj a haN ha
    have hmain : lubMain p nodes = [c] := by
      apply nodup_eq_singleton
        (List.Nodup.filter _ (commonUpperBounds_nodup p nodes))
      · refine List.mem_filter.mpr ⟨hcC, ?_⟩
        rw [List.all_eq_true]
        intro d hd
        exact decide_eq_true (hcUB d hd)
      · intro y hy
        have hyC := (List.mem_filter.mp hy).1
        have hyAll := (List.mem_filter.mp hy).2
        rw [List.all_eq_true] at hyAll
        have h1 : c ∈ upper_bounds p y := by
          have := hyAll c hcC
          simpa using this
        have h2 : y ∈ upper_bounds p c := hcUB y hyC
        exact upper_bounds_antisymm p y c h2 h1
    have hc2 : lubCandidates p nodes = [c] := by
      rw [lubCandidates, hshortNil, hmain]
      rfl
    unfold _least_upper_bound
    rw [hc2]

/-- C1 witness: for the concrete inputs `{int8, int16}` under the standard
policy, `int16` is itself a common upper bound and is returned. -/
theorem c1_witness :
    _least_upper_bound .standard [.concrete .int8, .concrete .int16] =
      .ok (.concrete .int16) :=
  (c1_least_upper_bound_reference .standard
      [.concrete .int8, .concrete .int16] (by decide)).1
    (.concrete .int16) (by decide) (by decide)

/-- C2: with zero candidates, `_least_upper_bound` fails with a
`TypePromotionError` whose message is chosen by precedence — strict policy,
then a float8 input, then an int4 input, then the generic message — and with
two or more candidates it fails with the distinct internal ill-formed-lattice
error, never silently picking one. -/
theorem c2_error_selection (p : Policy) (nodes : List JAXType) :
    (lubCandidates p nodes = [] → p = .strict →
        _least_upper_bound p nodes = .error .promoStrict) ∧
    (lubCandidates p nodes = [] → p ≠ .strict →
        (∃ n ∈ nodes, isFloat8Node n = true) →
        _least_upper_bound p nodes = .error .promoFloat8) ∧
    (lubCandidates p nodes = [] → p ≠ .strict →
        (¬ ∃ n ∈ nodes, isFloat8Node n = true) →
        (∃ n ∈ nodes, isInt4Node n = true) →
        _least_upper_bound p nodes = .error .promoInt4) ∧
    (lubCandidates p nodes = [] → p ≠ .strict →
        (¬ ∃ n ∈ nodes, isFloat8Node n = true) →
        (¬ ∃ n ∈ nodes, isInt4Node n = true) →
        _least_upper_bound p nodes = .error .promoGeneric) ∧
    (∀ x y rest, lubCandidates p nodes = x :: y :: rest →
        _least_upper_bound p nodes = .error .illFormedLattice) := by
  refine ⟨?_, ?_, ?_, ?_, ?_⟩
  · intro hc hp
    unfold _least_upper_bound
    rw [hc]
    subst hp
    simp [promoErrMsg]
  · intro hc hp hex
    have hany : nodes.any isFloat8Node = true := by
      rw [List.any_eq_true]
      exact hex
    unfold _least_upper_bound
    rw [hc]
    simp [promoErrMsg, hp, hany]
  · intro hc hp hn8 hex
    have hany8 : nodes.any isFloat8Node = false := by
      rw [Bool.eq_false_iff]
      intro h
      exact hn8 (List.any_eq_true.mp h)
    have hany4 : nodes.any isInt4Node = true := by
      rw [List.any_eq_true]
      exact hex
    unfold _least_upper_bound
    rw [hc]
    simp [promoErrMsg, hp, hany8, hany4]
  · intro hc hp hn8 hn4
    have hany8 : nodes.any isFloat8Node = false := by
      rw [Bool.eq_false_iff]
      intro h
      exact hn8 (List.any_eq_true.mp h)
    have hany4 : nodes.any isInt4Node = false := by
      rw [Bool.eq_false_iff]
      intro h
      exact hn4 (List.any_eq_true.mp h)
    unfold _least_upper_bound
    rw [hc]
    simp [promoErrMsg, hp, hany8, hany4]
  · intro x y rest hc
    unfold _least_upper_bound
    rw [hc]

/-- C2 witness: `{float8_e4m3fn, float32}` has no candidate under the standard
policy and the float8 diagnostic is selected. -/
theorem c2_witness :
    _least_upper_bound .standard [.concrete .float8_e4m3fn, .concrete .float32]
      = .error .promoFloat8 :=
  (c2_error_selection .standard
      [.concrete .float8_e4m3fn, .concrete .float32]).2.1
    (by decide) (by decide) (by decide)

/-- The two-argument promotion entry `promote_types`: each argument is kept as
a weak tag when it is one of the `_weak_types` singletons (identity check) and
converted with `np.dtype` otherwise — which the `JAXType` sum already encodes —
then the least upper bound is taken and converted back with `np.dtype`.
Note the source does not canonicalize the result. -/
def promote_types (p : Policy) (a b : JAXType) : Except JaxError DType :=
  (_least_upper_bound p [a, b]).map dtype_of_jax_type

/-- C4: under the strict policy any two distinct concrete dtypes fail to
promote with the strict-mode `TypePromotionError`, while a weak tag combined
with any concrete dtype reachable from it in the strict lattice (its
compatible categories) adapts to that concrete dtype; in particular
`promote_types(int32, int64)` fails and
`promote_types(weak_int, int64) = int64`. -/
theorem c4_strict_promotion (wtag : JAXType) (cdt : DType) :
    (∀ a b : DType, a ≠ b →
        promote_types .strict (.concrete a) (.concrete b) =
          .error .promoStrict) ∧
    ((wtag = .weak_int ∨ wtag = .weak_float ∨ wtag = .weak_complex) →
        .concrete cdt ∈ upper_bounds .strict wtag →
        promote_types .strict wtag (.concrete cdt) = .ok cdt) ∧
    promote_types .strict (.concrete .int32) (.concrete .int64) =
      .error .promoStrict ∧
    promote_types .strict .weak_int (.concrete .int64) = .ok .int64 := by
  refine ⟨?_, ?_, by decide, by decide⟩
  · decide
  · revert wtag cdt
    decide

/-- C4 witness: the strict-policy failure and the weak-adaptation success at
the claim's concrete inputs. -/
theorem c4_witness :
    promote_types .strict (.concrete .int32) (.concrete .int64) =
        .error .promoStrict ∧
      promote_types .strict .weak_int (.concrete .int64) = .ok .int64 :=
  ⟨(c4_strict_promotion .weak_int .int64).1 .int32 .int64 (by decide),
   (c4_strict_promotion .weak_int .int64).2.1 (Or.inl rfl) (by decide)⟩

/-- C3 counterexample: the claim `promote_pair(a, a) == canonicalize(a)`
fails on the code for `a = int64` when x64 mode is off: `promote_types`
returns `int64` un-canonicalized while `canonicalize(int64)` is `int32`. -/
theorem c3_counterexample :
    promote_types .standard (.concrete .int64) (.concrete .int64) =
        .ok .int64 ∧
      canonicalize_dtype false .int64 = .int32 ∧
      DType.int64 ≠ DType.int32 := by
  refine ⟨by decide, by decide, by decide⟩

/-- C3 amended: self-promotion always succeeds and returns the dtype of the
tag without width canonicalization; this coincides with `canonicalize(a)`
exactly when x64 mode is enabled (under 32-bit mode the 64-bit-dtype tags
differ, as the counterexample shows). -/
theorem c3_self_promotion (p : Policy) (a : JAXType) :
    promote_types p a a = .ok (dtype_of_jax_type a) ∧
      canonicalize_dtype true (dtype_of_jax_type a) = dtype_of_jax_type a := by
  revert p a
  decide

/-- C7 counterexample: `promote_pair(float8_e4m3fn, int32)` does not raise
under the standard policy — `float8_e4m3fn` is reachable from `int32` through
`weak_float`, lies in the common-upper-bound set, and is itself an input, so
the shortcut returns it. -/
theorem c7_counterexample :
    promote_types .standard (.concrete .float8_e4m3fn) (.concrete .int32) =
      .ok .float8_e4m3fn := by
  decide

/-- C7 amended: in the standard lattice the five float8 formats and the two
4-bit integer dtypes are terminal nodes and the 4-bit dtypes attach directly
under weak-int, so a 4-bit integer never implicitly combines with an unrelated
concrete dtype (`promote_types(int4, int32)` raises) and a float8 never
combines with an unrelated concrete float (`promote_types(float8_e4m3fn,
float32)` raises); however concrete integers do promote into float8 formats
through weak-float: `promote_types(float8_e4m3fn, int32) = float8_e4m3fn`. -/
theorem c7_narrow_isolation :
    _type_promotion_lattice .standard (.concrete .float8_e4m3b11fnuz) = [] ∧
    _type_promotion_lattice .standard (.concrete .float8_e4m3fn) = [] ∧
    _type_promotion_lattice .standard (.concrete .float8_e4m3fnuz) = [] ∧
    _type_promotion_lattice .standard (.concrete .float8_e5m2) = [] ∧
    _type_promotion_lattice .standard (.concrete .float8_e5m2fnuz) = [] ∧
    _type_promotion_lattice .standard (.concrete .int4) = [] ∧
    _type_promotion_lattice .standard (.concrete .uint4) = [] ∧
    .concrete .int4 ∈ _type_promotion_lattice .standard .weak_int ∧
    .concrete .uint4 ∈ _type_promotion_lattice .standard .weak_int ∧
    promote_types .standard (.concrete .int4) (.concrete .int32) =
      .error .promoInt4 ∧
    promote_types .standard (.concrete .float8_e4m3fn) (.concrete .float32) =
      .error .promoFloat8 ∧
    promote_types .standard (.concrete .float8_e4m3fn) (.concrete .int32) =
      .ok .float8_e4m3fn := by
  decide

/-- The category a dtype's zero scalar reports through
`type(dtype.type(0).item())` in `_jax_type`: integers (including the 4-bit
ones) give Python `int`, IEEE floats give `float`, complex gives `complex`.
The bool and custom-float rows are unreachable there (handled first) and are
mapped to their categories for totality. -/
def scalar_item_type (d : DType) : JAXType :=
  match d with
  | .bool => .concrete .bool
  | .uint4 | .uint8 | .uint16 | .uint32 | .uint64 => .weak_int
  | .int4 | .int8 | .int16 | .int32 | .int64 => .weak_int
  | .float16 | .float32 | .float64 => .weak_float
  | .float8_e4m3b11fnuz | .float8_e4m3fn | .float8_e4m3fnuz => .weak_float
  | .float8_e5m2 | .float8_e5m2fnuz | .bfloat16 => .weak_float
  | .complex64 | .complex128 => .weak_complex

/-- The source's `_jax_type(dtype, weak_type)`: a weak bool stays the bool
dtype, weak custom floats collapse to the `float` weak tag, other weak values
take their scalar category's weak tag, and strong values keep their dtype. -/
def _jax_type (d : DType) (weak_type : Bool) : JAXType :=
  if weak_type then
    if d = .bool then .concrete d
    else if decide (d ∈ _custom_float_dtypes) then .weak_float
    else scalar_item_type d
  else .concrete d

/-- The `np.dtype.kind` codes the engine consults (`biufc`). -/
inductive NpKind where
  | b | i | u | f | c
deriving DecidableEq, Repr, Fintype

/-- The `kind` of each dtype.  `result_type` never reads the kind of a custom
float (it substitutes the `f` key first), so their rows only serve totality;
the ml_dtypes 4-bit integers report integer kinds. -/
def dtypeKind : DType → NpKind
  | .bool => .b
  | .int4 | .int8 | .int16 | .int32 | .int64 => .i
  | .uint4 | .uint8 | .uint16 | .uint32 | .uint64 => .u
  | .float16 | .float32 | .float64 => .f
  | .float8_e4m3b11fnuz | .float8_e4m3fn | .float8_e4m3fnuz => .f
  | .float8_e5m2 | .float8_e5m2fnuz | .bfloat16 => .f
  | .complex64 | .complex128 => .c

/-- The `_default_types` mapping from kind to the configured default dtype,
with the `default_dtype_bits` flag identified with the single wide flag. -/
def _default_types (wide : Bool) : NpKind → DType
  | .b => .bool
  | .i => if wide then .int64 else .int32
  | .u => if wide then .uint64 else .uint32
  | .f => if wide then .float64 else .float32
  | .c => if wide then .complex128 else .complex64

/-- Is a lattice node one of the three weak tags?  (The source tests
`any(result_type is t for t in _weak_types)` by identity.) -/
def isWeakNode : JAXType → Bool
  | .concrete _ => false
  | _ => true

/-- The resolver core `_lattice_result_type`.  Operands are the
`(dtype, weak_type)` pairs `_dtype_and_weaktype` derives per argument.  The
four branches are: single operand passes through; identical dtypes with at
least one strong operand short-circuit with a strong result; an all-weak
operand list outside strict mode takes the bound of the strong counterparts
and re-applies weakness; otherwise the bound of the `_jax_type` images decides
both dtype and weakness.  The returned weak flag is forced false for a bool
result (`out_dtype != bool_`).  The sets passed to `_least_upper_bound` are
modeled by the mapped lists (the solver only uses membership). -/
def _lattice_result_type (p : Policy) (args : List (DType × Bool)) :
    Except JaxError (DType × Bool) :=
  match args with
  | [] => .error .invalidArgument
  | (d0, w0) :: rest =>
    let dtypes := (args.map Prod.fst)
    let weak_types := (args.map Prod.snd)
    let res : Except JaxError (DType × Bool) :=
      if rest.isEmpty then .ok (d0, w0)
      else if (dtypes.dedup.length == 1) && !(weak_types.all (fun w => w)) then
        .ok (d0, false)
      else if (weak_types.all (fun w => w)) && decide (p ≠ .strict) then
        (_least_upper_bound p (dtypes.map (fun d => _jax_type d false))).map
          (fun r => (dtype_of_jax_type r, true))
      else
        (_least_upper_bound p (args.map (fun dw => _jax_type dw.1 dw.2))).map
          (fun r => (dtype_of_jax_type r, isWeakNode r))
    res.map (fun dw => (dw.1, decide (dw.1 ≠ .bool) && dw.2))

/-- The public `result_type` restricted to numeric operands, always returning
the `(dtype, weak_type)` pair (the `return_weak_type_flag=False` form is its
first component).  An empty operand list raises; a weak result is
canonicalized to the configured default dtype of its kind (custom floats
substitute the `f` kind); a strong result is canonicalized directly (the
`allow_extended_dtype=True` permission only matters for extended dtypes,
which are outside the numeric operand model). -/
def result_type (p : Policy) (wide : Bool) (args : List (DType × Bool)) :
    Except JaxError (DType × Bool) :=
  if args.isEmpty then .error .invalidArgument
  else
    (_lattice_result_type p args).map
      (fun dw =>
        if dw.2 then
          (canonicalize_dtype wide
            (_default_types wide
              (if decide (dw.1 ∈ _custom_float_dtypes) then .f
               else dtypeKind dw.1)), true)
        else (canonicalize_dtype wide dw.1, false))

/-- C5: under the standard policy, a bool tag together with a weak int
literal resolves to the configured default signed integer with the weak flag
set, and adding a concrete float32 operand resolves to float32 with the weak
flag cleared. -/
theorem c5_bool_weak_int_float32 (wide : Bool) :
    result_type .standard wide [(.bool, false), (.int64, true)] =
        .ok (if wide then DType.int64 else DType.int32, true) ∧
      result_type .standard wide
          [(.bool, false), (.int64, true), (.float32, false)] =
        .ok (DType.float32, false) := by
  revert wide
  decide

theorem map_bool_guard_ne_bool {res : Except JaxError (DType × Bool)}
    {d : DType}
    (h : res.map (fun dw => (dw.1, decide (dw.1 ≠ DType.bool) && dw.2)) =
      .ok (d, true)) :
    d ≠ .bool := by
  match res with
  | .error e => simp [Except.map] at h
  | .ok dw =>
    simp only [Except.map, Except.ok.injEq] at h
    have h2 : (decide (dw.1 ≠ DType.bool) && dw.2) = true := by
      have := congrArg Prod.snd h
      simpa using this
    have h1 : dw.1 = d := congrArg Prod.fst h
    have hne : dw.1 ≠ .bool :=
      of_decide_eq_true ((Bool.and_eq_true _ _).mp h2).1
    exact h1 ▸ hne

/-- A weak result out of `_lattice_result_type` is never the bool dtype: the
returned weak flag is conjoined with `out_dtype != bool_`. -/
theorem lattice_weak_not_bool (p : Policy) (args : List (DType × Bool))
    (d : DType) (h : _lattice_result_type p args = .ok (d, true)) :
    d ≠ .bool := by
  match args with
  | [] => simp [_lattice_result_type] at h
  | (d0, w0) :: rest =>
    rw [_lattice_result_type] at h
    exact map_bool_guard_ne_bool h

theorem default_canon_ne_bool :
    ∀ (wide : Bool) (d : DType), d ≠ .bool →
      canonicalize_dtype wide
        (_default_types wide
          (if decide (d ∈ _custom_float_dtypes) then .f else dtypeKind d))
        ≠ .bool := by
  decide

/-- C10: whenever `result_type` resolves a non-empty operand list to the bool
dtype, the reported weak flag is false — even for a sole weak Python bool
operand. -/
theorem c10_bool_never_weak (p : Policy) (wide : Bool)
    (args : List (DType × Bool)) (d : DType) (w : Bool)
    (hne : args ≠ [])
    (h : result_type p wide args = .ok (d, w)) (hd : d = .bool) :
    result_type p wide args = .ok (.bool, false) := by
  subst hd
  have hie : ¬ (args.isEmpty = true) := by
    simpa [List.isEmpty_iff] using hne
  rw [result_type] at h ⊢
  rw [if_neg hie] at h ⊢
  cases hres : _lattice_result_type p args with
  | error e =>
    rw [hres] at h
    simp [Except.map] at h
  | ok dw =>
    rw [hres] at h
    obtain ⟨d1, w1⟩ := dw
    cases w1 with
    | false =>
      simp only [Except.map, Except.ok.injEq] at h ⊢
      simp only [Bool.false_eq_true, if_false] at h ⊢
      have h1 := congrArg Prod.fst h
      simp only at h1
      simp [h1]
    | true =>
      have hd1 : d1 ≠ .bool := lattice_weak_not_bool p args d1 hres
      exfalso
      simp only [Except.map, Except.ok.injEq, if_true] at h
      have h1 := congrArg Prod.fst h
      simp only at h1
      exact default_canon_ne_bool wide d1 hd1 h1

/-- C10 witness: a sole weak bool operand resolves to `(bool, false)`. -/
theorem c10_witness :
    result_type .standard false [(.bool, true)] = .ok (.bool, false) :=
  c10_bool_never_weak .standard false [(.bool, true)] .bool false
    (by decide) (by decide) rfl

/-- The cast-safety predicate `safe_to_cast`: both ends are canonicalized
(the `dtype(x, canonicalize=True)` calls), equal canonical dtypes are safe,
and otherwise the source asks whether promoting the input with the
canonicalized output dtype (deliberately strongly typed) lands exactly on
that output dtype. -/
def safe_to_cast (p : Policy) (wide : Bool) (input output : DType × Bool) :
    Except JaxError Bool :=
  if canonicalize_dtype wide input.1 = canonicalize_dtype wide output.1 then
    .ok true
  else
    (result_type p wide
        [input, (canonicalize_dtype wide output.1, false)]).map
      (fun r => decide (r.1 = canonicalize_dtype wide output.1))

/-- C8: `safe_to_cast(source, target)` is true exactly when the two ends have
the same (canonicalized) dtype or `result_type(source, target)` equals the
target dtype (the engine compares dtypes in canonical form — its own equality;
the claim's literal uncanonicalized reading would contradict its own
`safe_to_cast(int32, float64)` example under the default 32-bit mode); the two
quoted examples hold in both width modes. -/
theorem c8_safe_to_cast :
    (∀ (p : Policy) (wide : Bool) (src tgt : DType × Bool),
      safe_to_cast p wide src tgt = .ok true ↔
        (canonicalize_dtype wide src.1 = canonicalize_dtype wide tgt.1 ∨
          (result_type p wide
              [src, (canonicalize_dtype wide tgt.1, false)]).map Prod.fst =
            .ok (canonicalize_dtype wide tgt.1))) ∧
    (∀ wide : Bool,
      safe_to_cast .standard wide (.int32, false) (.float64, false) =
          .ok true ∧
        safe_to_cast .standard wide (.float64, false) (.int32, false) =
          .ok false) := by
  constructor
  · intro p wide src tgt
    by_cases heq :
        canonicalize_dtype wide src.1 = canonicalize_dtype wide tgt.1
    · constructor
      · intro _
        exact Or.inl heq
      · intro _
        rw [safe_to_cast, if_pos heq]
    · rw [safe_to_cast, if_neg heq]
      cases hres : result_type p wide
          [src, (canonicalize_dtype wide tgt.1, false)] with
      | error e => simp [Except.map, heq]
      | ok r =>
        obtain ⟨d1, w1⟩ := r
        simp [Except.map, heq]
  · decide

/-- The numpy scalar classes the oracle manipulates: the abstract hierarchy
nodes, the two extended scalar classes `extended` and `prng_key` defined by
the source, and the concrete scalar type of each dtype (`np.dtype(d).type`). -/
inductive ScalarClass where
  | generic | number | integer | signedinteger | unsignedinteger
  | inexact | floating | complexfloating
  | extendedCls | prng_keyCls
  | concreteScalar (d : DType)
deriving DecidableEq, Repr

/-- An `ExtendedDType` instance: an opaque descriptor carrying its associated
scalar class through the abstract `type` property (plus an identity for the
source's `a == b` object comparison). -/
structure ExtDescr where
  id : Nat
  type : ScalarClass
deriving DecidableEq, Repr

/-- The Python scalar types `int`, `float`, `complex` — the `_weak_types`
singletons — when passed as arguments to the oracle. -/
inductive PyWeakType where
  | int | float | complex
deriving DecidableEq, Repr, Fintype

/-- An argument acceptable to `issubdtype` / `_canonicalize_dtype`: a numpy
dtype instance, a Python scalar type, a scalar class, or an `ExtendedDType`
descriptor. -/
inductive TypeArg where
  | dt (d : DType)
  | pyType (w : PyWeakType)
  | sclass (c : ScalarClass)
  | extDescr (e : ExtDescr)
deriving DecidableEq, Repr

/-- The immediate superclass of each scalar class in the numpy hierarchy.
`np.bool_` and the source's `extended` hang directly under `np.generic`;
`prng_key` extends `extended`; the ml_dtypes custom scalar types (float8s,
bfloat16, int4, uint4) do not participate in the numpy tower. -/
def scalarParent : ScalarClass → Option ScalarClass
  | .generic => none
  | .number => some .generic
  | .integer => some .number
  | .signedinteger => some .integer
  | .unsignedinteger => some .integer
  | .inexact => some .number
  | .floating => some .inexact
  | .complexfloating => some .inexact
  | .extendedCls => some .generic
  | .prng_keyCls => some .extendedCls
  | .concreteScalar d =>
    match d with
    | .bool => some .generic
    | .int8 | .int16 | .int32 | .int64 => some .signedinteger
    | .uint8 | .uint16 | .uint32 | .uint64 => some .unsignedinteger
    | .float16 | .float32 | .float64 => some .floating
    | .complex64 | .complex128 => some .complexfloating
    | _ => none

/-- Class-level `issubclass` on scalar classes, by walking the parent chain
(fuel 5 exceeds the chain depth 4).  This is the source's `_issubclass`
restricted to class arguments; non-class arguments are handled at the
`issubdtype` call sites. -/
def classSubAux : Nat → ScalarClass → ScalarClass → Bool
  | 0, a, b => decide (a = b)
  | n+1, a, b =>
    decide (a = b) ||
      (match scalarParent a with
       | some q => classSubAux n q b
       | none => false)

/-- Source helper `_issubclass` on scalar classes. -/
def _issubclass (a b : ScalarClass) : Bool := classSubAux 5 a b

/-- Normalization `a if _issubclass(a, np.generic) else np.dtype(a).type`: a
dtype instance yields its scalar type, a Python scalar type yields the scalar
type of its default dtype (`np.dtype(int).type` is `np.int64` on JAX's 64-bit
platforms), and a scalar class stays itself (custom scalar classes fail the
`np.generic` test but `np.dtype(cls).type` returns them unchanged).  A
descriptor is replaced by its `type` before this point. -/
def sctypeOf : TypeArg → ScalarClass
  | .dt d => .concreteScalar d
  | .pyType .int => .concreteScalar .int64
  | .pyType .float => .concreteScalar .float64
  | .pyType .complex => .concreteScalar .complex128
  | .sclass c => c
  | .extDescr e => e.type

/-- The scalar classes of `_custom_float_scalar_types`. -/
def _custom_float_scalar_types : List ScalarClass :=
  _custom_float_dtypes.map .concreteScalar

/-- The custom-dtype special cases and numpy fallback of `issubdtype`, after
the extended-dtype dispatch: float8/bfloat16 scalar types are subtypes only of
themselves, `floating`, `inexact`, `number` and `generic`; `int4` and `uint4`
analogously with their signedness; everything else defers to
`np.issubdtype` on the normalized scalar types. -/
def issubdtypeCore (a : TypeArg) (b_sctype : ScalarClass) : Bool :=
  if decide ((match a with
              | .extDescr e => e.type
              | _ => sctypeOf a) ∈ _custom_float_scalar_types) then
    decide (b_sctype ∈ [(match a with
                         | .extDescr e => e.type
                         | _ => sctypeOf a),
                        ScalarClass.floating, ScalarClass.inexact,
                        ScalarClass.number, ScalarClass.generic])
  else if decide ((match a with
                   | .extDescr e => e.type
                   | _ => sctypeOf a) = .concreteScalar .int4) then
    decide (b_sctype ∈ [ScalarClass.concreteScalar .int4,
                        ScalarClass.signedinteger, ScalarClass.integer,
                        ScalarClass.number, ScalarClass.generic])
  else if decide ((match a with
                   | .extDescr e => e.type
                   | _ => sctypeOf a) = .concreteScalar .uint4) then
    decide (b_sctype ∈ [ScalarClass.concreteScalar .uint4,
                        ScalarClass.unsignedinteger, ScalarClass.integer,
                        ScalarClass.number, ScalarClass.generic])
  else
    _issubclass (match a with
                 | .extDescr e => e.type
                 | _ => sctypeOf a) b_sctype

/-- The subtype oracle `issubdtype`: if `b` is a class below `extended`, a
descriptor answers through its scalar class and anything else through its
normalized scalar type; if `b` is itself a descriptor, only the equal
descriptor is its subtype; otherwise a descriptor argument `a` is replaced by
its scalar class and the custom-dtype special cases and numpy fallback
decide. -/
def issubdtype (a b : TypeArg) : Bool :=
  match b with
  | .sclass cb =>
    if _issubclass cb .extendedCls then
      match a with
      | .extDescr e => _issubclass e.type cb
      | _ => _issubclass (sctypeOf a) cb
    else issubdtypeCore a cb
  | .extDescr eb =>
    match a with
    | .extDescr ea => decide (ea = eb)
    | _ => false
  | _ => issubdtypeCore a (sctypeOf b)

/-- C9: the subtype predicate is reflexive on every type tag — concrete
dtypes (including the narrow float and 4-bit integer formats), the weak
Python scalar types, and extended-dtype descriptors. -/
theorem c9_issubdtype_refl :
    (∀ d : DType, issubdtype (.dt d) (.dt d) = true) ∧
    (∀ w : PyWeakType, issubdtype (.pyType w) (.pyType w) = true) ∧
    (∀ e : ExtDescr, issubdtype (.extDescr e) (.extDescr e) = true) := by
  refine ⟨by decide, by decide, ?_⟩
  intro e
  simp [issubdtype]

/-- Conversion `np.dtype(t)` for canonicalization: dtype instances pass
through, Python scalar types map through `python_scalar_dtypes`, concrete
scalar classes map to their dtype, and everything else is not understood
(`TypeError`).  Non-extended descriptors reaching this point fail likewise. -/
def np_dtype_of : TypeArg → Option DType
  | .dt d => some d
  | .pyType .int => some .int64
  | .pyType .float => some .float64
  | .pyType .complex => some .complex128
  | .sclass (.concreteScalar d) => some d
  | .sclass _ => none
  | .extDescr _ => none

/-- The cached canonicalizer `_canonicalize_dtype(x64_enabled,
allow_extended_dtype, dtype)`: an extended dtype is returned unchanged when
permitted and rejected otherwise; any other argument is converted with
`np.dtype` and narrowed through `_dtype_to_32bit_dtype` unless x64 is
enabled. -/
def _canonicalize_dtype (x64_enabled allow_extended_dtype : Bool)
    (t : TypeArg) : Except JaxError TypeArg :=
  if issubdtype t (.sclass .extendedCls) then
    if allow_extended_dtype then .ok t else .error .invalidArgument
  else
    match np_dtype_of t with
    | none => .error .invalidArgument
    | some d =>
      .ok (.dt (if x64_enabled then d else _dtype_to_32bit_dtype d))

/-- A spec-side restatement of the narrowing map: exactly the four 64-bit
dtypes move to their 32-bit counterparts and every other dtype is unchanged
(stated from the spec's words for comparison with the source's table). -/
def canonicalize_spec_narrow (d : DType) : DType :=
  if d = .int64 then .int32
  else if d = .uint64 then .uint32
  else if d = .float64 then .float32
  else if d = .complex128 then .complex64
  else d

/-- C6: canonicalization rejects an extended dtype when
`allow_extended_dtype` is false; in narrow mode it maps exactly the four
64-bit dtypes to their 32-bit counterparts and leaves every other dtype
unchanged; in wide mode it is the identity on dtypes; in particular `int64`
maps to `int32` narrow and `int64` wide. -/
theorem c6_canonicalize (ae : Bool) :
    (∀ (x64 : Bool) (e : ExtDescr),
        issubdtype (.extDescr e) (.sclass .extendedCls) = true →
        _canonicalize_dtype x64 false (.extDescr e) =
          .error .invalidArgument) ∧
    (∀ d : DType, _canonicalize_dtype false ae (.dt d) =
        .ok (.dt (canonicalize_spec_narrow d))) ∧
    (∀ d : DType, _canonicalize_dtype true ae (.dt d) = .ok (.dt d)) ∧
    _canonicalize_dtype false ae (.dt .int64) = .ok (.dt .int32) ∧
    _canonicalize_dtype true ae (.dt .int64) = .ok (.dt .int64) := by
  refine ⟨?_, ?_, ?_, ?_, ?_⟩
  · intro x64 e hext
    rw [_canonicalize_dtype, if_pos hext]
    rfl
  · revert ae
    decide
  · revert ae
    decide
  · revert ae
    decide
  · revert ae
    decide

/-- C6 witness: a PRNG-key descriptor is rejected without the permission
flag, and the two `int64` facts hold. -/
theorem c6_witness :
    _canonicalize_dtype false false
        (.extDescr { id := 0, type := .prng_keyCls }) =
      .error .invalidArgument :=
  (c6_canonicalize false).1 false { id := 0, type := .prng_keyCls } (by decide)

end JaxDtypes
